import Mathlib

/-!
Verification of the callpilot scheduling backend.

This development shallowly embeds the core of the backend
(`backend/app/services/calendar.py`, `backend/app/services/scoring.py`,
`backend/app/store.py`, `backend/app/swarm/models.py`,
`backend/app/swarm/manager.py`, `backend/app/voice/tools_registry.py`)
and proves or refutes the specified properties.

Conventions of the embedding:
* datetimes are integers (minutes or seconds on a fixed timeline; the
  timezone localisation performed by the Python code is a monotone
  re-labelling of the same instants, so interval arithmetic is unchanged);
* Python floats are modelled as rationals (`ℚ`);
* Python dicts used as string-keyed lookup tables are association lists
  (`List (String × _)`) read through `List.lookup`;
* code that can raise returns `Except`; an `Except.error` value marks the
  exception that the Python code would raise at that point.
-/

namespace CallPilot

/-- A half-open time interval `[lo, hi)` on an integer timeline. -/
structure Iv where
  lo : ℤ
  hi : ℤ
deriving DecidableEq

/-- A point `t` is covered by one of the busy intervals.
(`b.lo ≤ t < b.hi`, matching the half-open convention of
`_intervals_overlap` in `calendar.py`.) -/
def busyIn (busy : List Iv) (t : ℤ) : Prop :=
  ∃ b ∈ busy, b.lo ≤ t ∧ t < b.hi

instance (busy : List Iv) (t : ℤ) : Decidable (busyIn busy t) := by
  unfold busyIn; infer_instance

theorem busyIn_nil (t : ℤ) : ¬ busyIn [] t := by simp [busyIn]

theorem busyIn_cons {b : Iv} {rest : List Iv} {t : ℤ} :
    busyIn (b :: rest) t ↔ (b.lo ≤ t ∧ t < b.hi) ∨ busyIn rest t := by
  simp [busyIn]

/-- `_intervals_overlap` from `calendar.py`:
`a_start < b_end and b_start < a_end`. -/
def intervalsOverlap (aLo aHi bLo bHi : ℤ) : Bool :=
  decide (aLo < bHi) && decide (bLo < aHi)

/-- The loop body of `_compute_free_windows` from `calendar.py`.
`cursor` is the moving cursor; the two `if`s mirror the clamp / skip /
gap-emission logic of the source line by line. -/
def cfwGo (dayStart dayEnd minSlot : ℤ) : ℤ → List Iv → List Iv
  | cursor, [] =>
      -- trailing free window after the last busy block
      if cursor < dayEnd ∧ minSlot ≤ dayEnd - cursor then [⟨cursor, dayEnd⟩] else []
  | cursor, b :: rest =>
      let bs := max b.lo dayStart
      let be := min b.hi dayEnd
      if dayEnd ≤ bs ∨ be ≤ dayStart then
        -- outside window: continue
        cfwGo dayStart dayEnd minSlot cursor rest
      else
        (if cursor < bs ∧ minSlot ≤ bs - cursor then [(⟨cursor, bs⟩ : Iv)] else []) ++
          cfwGo dayStart dayEnd minSlot (max cursor be) rest

/-- `_compute_free_windows(day_start, day_end, busy_blocks, min_slot_minutes)`
from `calendar.py`.  Busy blocks must already be sorted by start time. -/
def computeFreeWindows (dayStart dayEnd : ℤ) (busyBlocks : List Iv)
    (minSlotMinutes : ℤ) : List Iv :=
  cfwGo dayStart dayEnd minSlotMinutes dayStart busyBlocks

/-- Specification predicate for claim C6: `⟨s, e⟩` is a maximal sub-interval
of `[c, dayEnd)` that is disjoint from every busy interval and at least
`minSlot` long.  Maximality: the window cannot be extended one step to the
left (`s = c` or `s - 1` is busy) nor to the right (`e = dayEnd` or `e` is
busy). -/
def MaxFree (dayEnd minSlot c : ℤ) (busy : List Iv) (s e : ℤ) : Prop :=
  c ≤ s ∧ s < e ∧ e ≤ dayEnd ∧ minSlot ≤ e - s ∧
  (∀ t, s ≤ t → t < e → ¬ busyIn busy t) ∧
  (s = c ∨ busyIn busy (s - 1)) ∧
  (e = dayEnd ∨ busyIn busy e)

theorem cfwGo_eq_nil_of_le (dayStart dayEnd minSlot : ℤ)
    (busy : List Iv) (c : ℤ) (h : dayEnd ≤ c) :
    cfwGo dayStart dayEnd minSlot c busy = [] := by
  induction busy generalizing c with
  | nil => simp only [cfwGo]; rw [if_neg]; omega
  | cons b rest ih =>
      simp only [cfwGo]
      by_cases hskip : dayEnd ≤ max b.lo dayStart ∨ min b.hi dayEnd ≤ dayStart
      · rw [if_pos hskip]; exact ih c h
      · rw [if_neg hskip]
        have h1 : ¬ (c < max b.lo dayStart ∧ minSlot ≤ max b.lo dayStart - c) := by omega
        rw [if_neg h1, List.nil_append]
        exact ih _ (by omega)

theorem cfwGo_mem_iff (dayStart dayEnd minSlot : ℤ) (hdd : dayStart ≤ dayEnd) :
    ∀ (busy : List Iv) (c : ℤ),
      busy.Pairwise (fun a b => a.lo ≤ b.lo) →
      (∀ b ∈ busy, b.lo < b.hi) →
      dayStart ≤ c →
      ∀ s e, (Iv.mk s e ∈ cfwGo dayStart dayEnd minSlot c busy ↔
              MaxFree dayEnd minSlot c busy s e) := by
  intro busy
  induction busy with
  | nil =>
      intro c _ _ hc s e
      simp only [cfwGo, MaxFree]
      constructor
      · intro hmem
        by_cases hcond : c < dayEnd ∧ minSlot ≤ dayEnd - c
        · rw [if_pos hcond] at hmem
          simp only [List.mem_singleton, Iv.mk.injEq] at hmem
          obtain ⟨rfl, rfl⟩ := hmem
          exact ⟨le_refl _, by omega, le_refl _, by omega,
            fun t _ _ h => busyIn_nil t h, Or.inl rfl, Or.inl rfl⟩
        · rw [if_neg hcond] at hmem; simp at hmem
      · rintro ⟨h1, h2, h3, h4, _, h6, h7⟩
        rcases h6 with rfl | h6
        · rcases h7 with rfl | h7
          · rw [if_pos (by omega)]; simp
          · exact absurd h7 (busyIn_nil _)
        · exact absurd h6 (busyIn_nil _)
  | cons b rest ih =>
      intro c hsort hne hc s e
      rw [List.pairwise_cons] at hsort
      obtain ⟨hble, hsort'⟩ := hsort
      have hbne : b.lo < b.hi := hne b (by simp)
      have hne' : ∀ x ∈ rest, x.lo < x.hi := fun x hx => hne x (List.mem_cons_of_mem _ hx)
      simp only [cfwGo]
      by_cases hskip : dayEnd ≤ max b.lo dayStart ∨ min b.hi dayEnd ≤ dayStart
      · rw [if_pos hskip]
        rw [ih c hsort' hne' hc s e]
        unfold MaxFree
        constructor
        · rintro ⟨h1, h2, h3, h4, h5, h6, h7⟩
          refine ⟨h1, h2, h3, h4, ?_, ?_, ?_⟩
          · intro t ht1 ht2 hb
            rcases busyIn_cons.mp hb with ⟨hb1, hb2⟩ | hrest
            · omega
            · exact h5 t ht1 ht2 hrest
          · rcases h6 with h | h
            · exact Or.inl h
            · exact Or.inr (busyIn_cons.mpr (Or.inr h))
          · rcases h7 with h | h
            · exact Or.inl h
            · exact Or.inr (busyIn_cons.mpr (Or.inr h))
        · rintro ⟨h1, h2, h3, h4, h5, h6, h7⟩
          refine ⟨h1, h2, h3, h4,
            fun t ht1 ht2 hrest => h5 t ht1 ht2 (busyIn_cons.mpr (Or.inr hrest)), ?_, ?_⟩
          · rcases h6 with h | h
            · exact Or.inl h
            · rcases busyIn_cons.mp h with ⟨hb1, hb2⟩ | hrest
              · left; omega
              · exact Or.inr hrest
          · rcases h7 with h | h
            · exact Or.inl h
            · rcases busyIn_cons.mp h with ⟨hb1, hb2⟩ | hrest
              · left; omega
              · exact Or.inr hrest
      · rw [if_neg hskip]
        push_neg at hskip
        obtain ⟨hbs, hbe⟩ := hskip
        rw [List.mem_append, ih (max c (min b.hi dayEnd)) hsort' hne' (by omega) s e]
        unfold MaxFree
        constructor
        · rintro (hmem | ⟨h1, h2, h3, h4, h5, h6, h7⟩)
          · -- the gap emitted just before this busy block
            have hcond : c < max b.lo dayStart ∧ minSlot ≤ max b.lo dayStart - c ∧
                s = c ∧ e = max b.lo dayStart := by
              by_cases hh : c < max b.lo dayStart ∧ minSlot ≤ max b.lo dayStart - c
              · rw [if_pos hh] at hmem
                simp only [List.mem_singleton, Iv.mk.injEq] at hmem
                exact ⟨hh.1, hh.2, hmem.1, hmem.2⟩
              · rw [if_neg hh] at hmem; simp at hmem
            obtain ⟨hc1, hc2, rfl, rfl⟩ := hcond
            have hbslo : max b.lo dayStart = b.lo := by omega
            refine ⟨le_refl _, by omega, by omega, by omega, ?_, Or.inl rfl, ?_⟩
            · intro t ht1 ht2 hb
              rcases busyIn_cons.mp hb with ⟨hb1, hb2⟩ | ⟨b', hb', hb1', hb2'⟩
              · omega
              · have := hble b' hb'
                omega
            · exact Or.inr (busyIn_cons.mpr (Or.inl (by omega)))
          · -- a window produced after this busy block
            refine ⟨by omega, h2, h3, h4, ?_, ?_, ?_⟩
            · intro t ht1 ht2 hb
              rcases busyIn_cons.mp hb with ⟨hb1, hb2⟩ | hrest
              · omega
              · exact h5 t ht1 ht2 hrest
            · rcases h6 with h | h
              · by_cases hcb : min b.hi dayEnd ≤ c
                · left; omega
                · exact Or.inr (busyIn_cons.mpr (Or.inl (by omega)))
              · exact Or.inr (busyIn_cons.mpr (Or.inr h))
            · rcases h7 with h | h
              · exact Or.inl h
              · exact Or.inr (busyIn_cons.mpr (Or.inr h))
        · rintro ⟨h1, h2, h3, h4, h5, h6, h7⟩
          -- the window is disjoint from the (clamped) block, so it lies
          -- entirely before or entirely after it
          have hfree_b : e ≤ max b.lo dayStart ∨ min b.hi dayEnd ≤ s := by
            by_contra hcon
            push_neg at hcon
            exact h5 (max s (max b.lo dayStart)) (by omega) (by omega)
              (busyIn_cons.mpr (Or.inl (by omega)))
          rcases hfree_b with hA | hB
          · left
            have hbslo : max b.lo dayStart = b.lo := by omega
            have he : e = b.lo := by
              rcases h7 with h | h
              · omega
              · rcases busyIn_cons.mp h with ⟨hb1, hb2⟩ | ⟨b', hb', hb1', hb2'⟩
                · omega
                · have := hble b' hb'
                  omega
            have hs : s = c := by
              rcases h6 with h | h
              · exact h
              · rcases busyIn_cons.mp h with ⟨hb1, hb2⟩ | ⟨b', hb', hb1', hb2'⟩
                · omega
                · have := hble b' hb'
                  omega
            subst hs
            rw [if_pos (by omega)]
            simp only [List.mem_singleton, Iv.mk.injEq]
            exact ⟨trivial, by omega⟩
          · right
            refine ⟨by omega, h2, h3, h4, ?_, ?_, ?_⟩
            · intro t ht1 ht2 hrest
              exact h5 t ht1 ht2 (busyIn_cons.mpr (Or.inr hrest))
            · rcases h6 with h | h
              · left; omega
              · rcases busyIn_cons.mp h with ⟨hb1, hb2⟩ | hrest
                · left; omega
                · exact Or.inr hrest
            · rcases h7 with h | h
              · exact Or.inl h
              · rcases busyIn_cons.mp h with ⟨hb1, hb2⟩ | hrest
                · exfalso; omega
                · exact Or.inr hrest

/-- **C6**: for any business-hours window `[dayStart, dayEnd)` and any list of
proper busy intervals sorted by start, `_compute_free_windows` returns exactly
the maximal sub-intervals of the window that are disjoint from every busy
interval and have length at least `minSlot`. -/
theorem computeFreeWindows_exact (dayStart dayEnd minSlot : ℤ) (busy : List Iv)
    (hsorted : busy.Pairwise (fun a b => a.lo ≤ b.lo))
    (hproper : ∀ b ∈ busy, b.lo < b.hi)
    (hwindow : dayStart ≤ dayEnd) (s e : ℤ) :
    Iv.mk s e ∈ computeFreeWindows dayStart dayEnd busy minSlot ↔
      MaxFree dayEnd minSlot dayStart busy s e :=
  cfwGo_mem_iff dayStart dayEnd minSlot hwindow busy dayStart hsorted hproper le_rfl s e

/-- Witness for C6 at a concrete input: 9:00–17:00 business hours (minutes
540–1020) with a 12:00–13:00 busy block; the morning gap 9:00–12:00 is
returned and is indeed maximal-free. -/
theorem computeFreeWindows_exact_witness :
    MaxFree 1020 30 540 [⟨720, 780⟩] 540 720 :=
  (computeFreeWindows_exact 540 1020 30 [⟨720, 780⟩] (by simp) (by simp) (by omega)
    540 720).mp (by decide)

/-! ### Scoring engine (`backend/app/services/scoring.py`) -/

/-- `SlotOffer` from `schemas.py` (the fields the core uses; datetimes are
integers on the timeline, floats are rationals).  The source field `end` is a
Lean keyword and is called `stop` here. -/
structure SlotOffer where
  provider_id : String
  start : ℤ
  stop : ℤ
  notes : String
  confidence : ℚ
  score : Option ℚ
deriving DecidableEq

/-- `Provider` from `schemas.py` (the fields the scoring engine reads). -/
structure Provider where
  id : String
  name : String
  rating : ℚ
deriving DecidableEq

def DEFAULT_EARLIEST_WEIGHT : ℚ := 1/2

def DEFAULT_RATING_WEIGHT : ℚ := 1/4

def DEFAULT_DISTANCE_WEIGHT : ℚ := 1/5

def DEFAULT_PREFERENCE_WEIGHT : ℚ := 1/20

/-- Python's `round(x, 4)`: round to four decimal places, ties to the even
integer of ten-thousandths (banker's rounding). -/
def round4 (x : ℚ) : ℚ :=
  ((if x * 10000 - (⌊x * 10000⌋ : ℚ) < 1/2 then ⌊x * 10000⌋
    else if 1/2 < x * 10000 - (⌊x * 10000⌋ : ℚ) then ⌊x * 10000⌋ + 1
    else if ⌊x * 10000⌋ % 2 = 0 then ⌊x * 10000⌋ else ⌊x * 10000⌋ + 1 : ℤ) : ℚ)
    / 10000

theorem round4_one : round4 1 = 1 := by norm_num [round4]

theorem round4_nonneg {x : ℚ} (hx : 0 ≤ x) : 0 ≤ round4 x := by
  unfold round4
  have hf : (0 : ℤ) ≤ ⌊x * 10000⌋ := Int.floor_nonneg.mpr (by positivity)
  have hn : (0 : ℤ) ≤
      (if x * 10000 - (⌊x * 10000⌋ : ℚ) < 1/2 then ⌊x * 10000⌋
       else if 1/2 < x * 10000 - (⌊x * 10000⌋ : ℚ) then ⌊x * 10000⌋ + 1
       else if ⌊x * 10000⌋ % 2 = 0 then ⌊x * 10000⌋ else ⌊x * 10000⌋ + 1) := by
    split_ifs <;> omega
  have : (0 : ℚ) ≤
      ((if x * 10000 - (⌊x * 10000⌋ : ℚ) < 1/2 then ⌊x * 10000⌋
        else if 1/2 < x * 10000 - (⌊x * 10000⌋ : ℚ) then ⌊x * 10000⌋ + 1
        else if ⌊x * 10000⌋ % 2 = 0 then ⌊x * 10000⌋ else ⌊x * 10000⌋ + 1 : ℤ) : ℚ) := by
    exact_mod_cast hn
  positivity

theorem round4_le_one {x : ℚ} (hx : x ≤ 1) : round4 x ≤ 1 := by
  unfold round4
  have hx4 : x * 10000 ≤ 10000 := by linarith
  have hf : ⌊x * 10000⌋ ≤ 10000 := by
    have h := Int.floor_le_floor hx4
    simpa using h
  have hfl : (⌊x * 10000⌋ : ℚ) ≤ x * 10000 := Int.floor_le _
  rw [div_le_one (by norm_num)]
  have hn : (if x * 10000 - (⌊x * 10000⌋ : ℚ) < 1/2 then ⌊x * 10000⌋
       else if 1/2 < x * 10000 - (⌊x * 10000⌋ : ℚ) then ⌊x * 10000⌋ + 1
       else if ⌊x * 10000⌋ % 2 = 0 then ⌊x * 10000⌋ else ⌊x * 10000⌋ + 1) ≤
      (10000 : ℤ) := by
    split_ifs with h1 h2 h3
    · exact hf
    · -- here 1/2 ≤ x·10⁴ − ⌊x·10⁴⌋, so ⌊x·10⁴⌋ < 10000
      by_contra hcon
      push_neg at hcon
      have hfe : ⌊x * 10000⌋ = 10000 := by omega
      rw [hfe] at h2
      push_cast at h2
      linarith
    · exact hf
    · by_contra hcon
      push_neg at hcon
      have hfe : ⌊x * 10000⌋ = 10000 := by omega
      rw [hfe] at h1
      push_cast at h1
      linarith
  calc ((if x * 10000 - (⌊x * 10000⌋ : ℚ) < 1/2 then ⌊x * 10000⌋
       else if 1/2 < x * 10000 - (⌊x * 10000⌋ : ℚ) then ⌊x * 10000⌋ + 1
       else if ⌊x * 10000⌋ % 2 = 0 then ⌊x * 10000⌋ else ⌊x * 10000⌋ + 1 : ℤ) : ℚ)
      ≤ ((10000 : ℤ) : ℚ) := by exact_mod_cast hn
    _ = 10000 := by norm_num

/-- The per-component breakdown dict built by `score_offer`; `raw_score` and
`relative_score` are added by `rank_offers` during normalisation.  (The static
`weights` sub-dict, a copy of the input weights, is not modelled.) -/
structure Breakdown where
  earliest : ℚ
  rating : ℚ
  distance : ℚ
  preference : ℚ
  raw_score : Option ℚ
  relative_score : Option ℚ
deriving DecidableEq

/-- `score_offer` from `scoring.py`: weighted sum of four components, each
normalised to `[0, 1]` for well-formed inputs, rounded to 4 decimals. -/
def score_offer (offer : SlotOffer) (provider : Provider) (travel_min : ℤ)
    (prefs : List (String × ℚ)) (window_start window_end : ℤ) : ℚ × Breakdown :=
  let w_earliest := (prefs.lookup "earliest_weight").getD DEFAULT_EARLIEST_WEIGHT
  let w_rating := (prefs.lookup "rating_weight").getD DEFAULT_RATING_WEIGHT
  let w_distance := (prefs.lookup "distance_weight").getD DEFAULT_DISTANCE_WEIGHT
  let w_pref := (prefs.lookup "preference_weight").getD DEFAULT_PREFERENCE_WEIGHT
  let window_seconds : ℚ := max ((window_end - window_start : ℤ) : ℚ) 1
  let elapsed : ℚ := ((offer.start - window_start : ℤ) : ℚ)
  let earliest_score : ℚ := max 0 (1 - elapsed / window_seconds)
  let rating_score : ℚ := provider.rating / 5
  let distance_score : ℚ := 1 - min ((travel_min : ℚ)) 60 / 60
  let pref_score : ℚ := offer.confidence
  let total := w_earliest * earliest_score + w_rating * rating_score
    + w_distance * distance_score + w_pref * pref_score
  (round4 total,
    ⟨round4 earliest_score, round4 rating_score, round4 distance_score,
      round4 pref_score, none, none⟩)

/-- Stable insertion (descending by key) used to model Python's stable
`list.sort(key=..., reverse=True)`; a stable sort is uniquely determined by
the key order, so insertion sort is a faithful model of Timsort here. -/
def insertDesc {α : Type} (key : α → ℚ) (x : α) : List α → List α
  | [] => [x]
  | y :: ys => if key y < key x then x :: y :: ys else y :: insertDesc key x ys

def sortDesc {α : Type} (key : α → ℚ) (l : List α) : List α :=
  l.foldr (insertDesc key) []

theorem insertDesc_perm {α : Type} (key : α → ℚ) (x : α) (l : List α) :
    List.Perm (insertDesc key x l) (x :: l) := by
  induction l with
  | nil => rfl
  | cons y ys ih =>
      simp only [insertDesc]
      split_ifs
      · rfl
      · exact (ih.cons y).trans (List.Perm.swap x y ys)

theorem sortDesc_perm {α : Type} (key : α → ℚ) (l : List α) :
    List.Perm (sortDesc key l) l := by
  induction l with
  | nil => rfl
  | cons y ys ih => exact (insertDesc_perm key y (sortDesc key ys)).trans (ih.cons y)

theorem insertDesc_sorted {α : Type} (key : α → ℚ) (x : α) (l : List α)
    (hl : l.Pairwise (fun a b => key b ≤ key a)) :
    (insertDesc key x l).Pairwise (fun a b => key b ≤ key a) := by
  induction l with
  | nil => simp [insertDesc]
  | cons y ys ih =>
      rw [List.pairwise_cons] at hl
      obtain ⟨hy, hys⟩ := hl
      simp only [insertDesc]
      split_ifs with h
      · exact List.pairwise_cons.mpr
          ⟨by
            intro z hz
            rcases List.mem_cons.mp hz with rfl | hz'
            · exact le_of_lt h
            · exact le_trans (hy z hz') (le_of_lt h),
          List.pairwise_cons.mpr ⟨hy, hys⟩⟩
      · refine List.pairwise_cons.mpr ⟨?_, ih hys⟩
        intro z hz
        have hz' : z ∈ x :: ys := (insertDesc_perm key x ys).mem_iff.mp hz
        rcases List.mem_cons.mp hz' with rfl | hz''
        · exact le_of_not_lt h
        · exact hy z hz''

theorem sortDesc_sorted {α : Type} (key : α → ℚ) (l : List α) :
    (sortDesc key l).Pairwise (fun a b => key b ≤ key a) := by
  induction l with
  | nil => exact List.Pairwise.nil
  | cons y ys ih => exact insertDesc_sorted key y (sortDesc key ys) ih

/-- The scoring loop of `rank_offers`: offers whose provider is unknown are
dropped; a missing travel entry defaults to 20 minutes; each surviving offer
gets its `score` field set to the raw score and is paired with it and with
the breakdown. -/
def scoredOffers (offers : List SlotOffer) (providers_by_id : List (String × Provider))
    (travel_by_provider : List (String × ℤ)) (prefs : List (String × ℚ))
    (window_start window_end : ℤ) : List (ℚ × SlotOffer × Breakdown) :=
  offers.filterMap fun offer =>
    match providers_by_id.lookup offer.provider_id with
    | none => none
    | some provider =>
        let travel := (travel_by_provider.lookup offer.provider_id).getD 20
        let tb := score_offer offer provider travel prefs window_start window_end
        some (tb.1, { offer with score := some tb.1 }, tb.2)

/-- `setdefault`-and-append grouping of breakdowns by provider id
(the `debug` dict of `rank_offers`). -/
def insertBreakdown (pid : String) (br : Breakdown) :
    List (String × List Breakdown) → List (String × List Breakdown)
  | [] => [(pid, [br])]
  | (k, l) :: rest =>
      if k = pid then (k, l ++ [br]) :: rest else (k, l) :: insertBreakdown pid br rest

/-- `rank_offers` from `scoring.py`: score, sort descending by raw score
(stable), then normalise every score by the top raw score when it is
positive. -/
def rank_offers (offers : List SlotOffer) (providers_by_id : List (String × Provider))
    (travel_by_provider : List (String × ℤ)) (prefs : List (String × ℚ))
    (window_start window_end : ℤ) :
    List SlotOffer × List (String × List Breakdown) :=
  let scored := scoredOffers offers providers_by_id travel_by_provider prefs
    window_start window_end
  let sorted := sortDesc (fun t => t.1) scored
  let max_score : ℚ := match sorted.head? with
    | some t => t.1
    | none => 1
  let final := if 0 < max_score then
      sorted.map (fun t =>
        (t.1, { t.2.1 with score := some (round4 (t.1 / max_score)) },
          { t.2.2 with
              raw_score := some t.1
              relative_score := some (round4 (t.1 / max_score)) }))
    else sorted
  (final.map (fun t => t.2.1),
    final.foldl (fun acc t => insertBreakdown t.2.1.provider_id t.2.2 acc) [])

theorem rank_offers_fst_eq_of_head (offers : List SlotOffer)
    (providers_by_id : List (String × Provider))
    (travel_by_provider : List (String × ℤ)) (prefs : List (String × ℚ))
    (window_start window_end : ℤ) (t0 : ℚ × SlotOffer × Breakdown)
    (tail : List (ℚ × SlotOffer × Breakdown))
    (htail : sortDesc (fun t => t.1) (scoredOffers offers providers_by_id
      travel_by_provider prefs window_start window_end) = t0 :: tail)
    (hpos : 0 < t0.1) :
    (rank_offers offers providers_by_id travel_by_provider prefs
        window_start window_end).1 =
      (t0 :: tail).map
        (fun t => { t.2.1 with score := some (round4 (t.1 / t0.1)) }) := by
  simp only [rank_offers, htail, List.head?_cons]
  rw [if_pos hpos]
  simp [List.map_map, Function.comp]

/-- **C7 (amended)**: when the surviving offer list is non-empty and the top
raw score is positive, the first returned offer's score is exactly `1`, every
returned score is `≤ 1`, and — provided every surviving raw score is
non-negative (true e.g. for non-negative weights, travel times and
confidences) — every returned score is also `≥ 0`. -/
theorem rank_offers_relative_scores (offers : List SlotOffer)
    (providers_by_id : List (String × Provider))
    (travel_by_provider : List (String × ℤ)) (prefs : List (String × ℚ))
    (window_start window_end : ℤ) (t0 : ℚ × SlotOffer × Breakdown)
    (hhead : (sortDesc (fun t => t.1) (scoredOffers offers providers_by_id
      travel_by_provider prefs window_start window_end)).head? = some t0)
    (hpos : 0 < t0.1) :
    (∃ o0, (rank_offers offers providers_by_id travel_by_provider prefs
        window_start window_end).1.head? = some o0 ∧ o0.score = some 1) ∧
    (∀ o ∈ (rank_offers offers providers_by_id travel_by_provider prefs
        window_start window_end).1, ∃ q, o.score = some q ∧ q ≤ 1) ∧
    ((∀ t ∈ scoredOffers offers providers_by_id travel_by_provider prefs
        window_start window_end, 0 ≤ t.1) →
      ∀ o ∈ (rank_offers offers providers_by_id travel_by_provider prefs
        window_start window_end).1, ∃ q, o.score = some q ∧ 0 ≤ q) := by
  obtain ⟨tail, htail⟩ : ∃ tl, sortDesc (fun t => t.1) (scoredOffers offers
      providers_by_id travel_by_provider prefs window_start window_end) = t0 :: tl := by
    cases h : sortDesc (fun t => t.1) (scoredOffers offers providers_by_id
        travel_by_provider prefs window_start window_end) with
    | nil => rw [h] at hhead; simp at hhead
    | cons a tl =>
        rw [h] at hhead
        simp only [List.head?_cons, Option.some.injEq] at hhead
        exact ⟨tl, by rw [hhead]⟩
  have hpw := sortDesc_sorted (fun t => t.1) (scoredOffers offers providers_by_id
    travel_by_provider prefs window_start window_end)
  rw [htail, List.pairwise_cons] at hpw
  obtain ⟨hmax, _⟩ := hpw
  have hout := rank_offers_fst_eq_of_head offers providers_by_id travel_by_provider
    prefs window_start window_end t0 tail htail hpos
  refine ⟨?_, ?_, ?_⟩
  · refine ⟨{ t0.2.1 with score := some (round4 (t0.1 / t0.1)) }, ?_, ?_⟩
    · rw [hout]; simp
    · simp only [div_self (ne_of_gt hpos), round4_one]
  · intro o ho
    rw [hout] at ho
    simp only [List.mem_map, List.mem_cons] at ho
    obtain ⟨t, ht, rfl⟩ := ho
    refine ⟨round4 (t.1 / t0.1), rfl, ?_⟩
    have htle : t.1 ≤ t0.1 := by
      rcases ht with rfl | ht'
      · exact le_refl _
      · exact hmax t ht'
    exact round4_le_one ((div_le_one hpos).mpr htle)
  · intro hnn o ho
    rw [hout] at ho
    simp only [List.mem_map, List.mem_cons] at ho
    obtain ⟨t, ht, rfl⟩ := ho
    refine ⟨round4 (t.1 / t0.1), rfl, ?_⟩
    have htmem : t ∈ scoredOffers offers providers_by_id travel_by_provider prefs
        window_start window_end := by
      refine (sortDesc_perm (fun t => t.1) _).mem_iff.mp ?_
      rw [htail]
      exact List.mem_cons.mpr ht
    exact round4_nonneg (div_nonneg (hnn t htmem) (le_of_lt hpos))

/-- Every surviving scored entry reappears in the ranked output with the same
identity fields (only the `score` field is rewritten by normalisation). -/
theorem rank_offers_mem_of_scored (offers : List SlotOffer)
    (providers_by_id : List (String × Provider))
    (travel_by_provider : List (String × ℤ)) (prefs : List (String × ℚ))
    (window_start window_end : ℤ) (t : ℚ × SlotOffer × Breakdown)
    (ht : t ∈ scoredOffers offers providers_by_id travel_by_provider prefs
      window_start window_end) :
    ∃ o' ∈ (rank_offers offers providers_by_id travel_by_provider prefs
        window_start window_end).1,
      o'.provider_id = t.2.1.provider_id ∧ o'.start = t.2.1.start ∧
      o'.stop = t.2.1.stop ∧ o'.notes = t.2.1.notes ∧
      o'.confidence = t.2.1.confidence := by
  have hts : t ∈ sortDesc (fun t => t.1) (scoredOffers offers providers_by_id
      travel_by_provider prefs window_start window_end) :=
    (sortDesc_perm _ _).mem_iff.mpr ht
  simp only [rank_offers]
  split_ifs with h
  · refine ⟨_, List.mem_map.mpr ⟨_, List.mem_map.mpr ⟨t, hts, rfl⟩, rfl⟩,
      rfl, rfl, rfl, rfl, rfl⟩
  · exact ⟨t.2.1, List.mem_map.mpr ⟨t, hts, rfl⟩, rfl, rfl, rfl, rfl, rfl⟩

/-- **C9**: an offer whose provider is known but which has no travel entry is
neither dropped nor an error: it is scored with the default travel time of 20
minutes and appears in the ranked output. -/
theorem rank_offers_default_travel (offers : List SlotOffer)
    (providers_by_id : List (String × Provider))
    (travel_by_provider : List (String × ℤ)) (prefs : List (String × ℚ))
    (window_start window_end : ℤ) (offer : SlotOffer) (provider : Provider)
    (hmem : offer ∈ offers)
    (hprov : providers_by_id.lookup offer.provider_id = some provider)
    (htravel : travel_by_provider.lookup offer.provider_id = none) :
    ((score_offer offer provider 20 prefs window_start window_end).1,
      { offer with
          score := some (score_offer offer provider 20 prefs window_start window_end).1 },
      (score_offer offer provider 20 prefs window_start window_end).2) ∈
        scoredOffers offers providers_by_id travel_by_provider prefs
          window_start window_end ∧
    ∃ o' ∈ (rank_offers offers providers_by_id travel_by_provider prefs
        window_start window_end).1,
      o'.provider_id = offer.provider_id ∧ o'.start = offer.start ∧
      o'.stop = offer.stop ∧ o'.notes = offer.notes ∧
      o'.confidence = offer.confidence := by
  have hscored : ((score_offer offer provider 20 prefs window_start window_end).1,
      { offer with
          score := some (score_offer offer provider 20 prefs window_start window_end).1 },
      (score_offer offer provider 20 prefs window_start window_end).2) ∈
        scoredOffers offers providers_by_id travel_by_provider prefs
          window_start window_end := by
    refine List.mem_filterMap.mpr ⟨offer, hmem, ?_⟩
    rw [hprov, htravel]
    rfl
  refine ⟨hscored, ?_⟩
  have h := rank_offers_mem_of_scored offers providers_by_id travel_by_provider
    prefs window_start window_end _ hscored
  exact h

/-- Counterexample to C7 as stated: `preferences` is an unvalidated
`dict[str, float]` in `schemas.py`, so a campaign with a negative weight is
accepted; then the surviving list is non-empty and the top raw score is
`1 > 0`, yet the second returned offer's normalised score is `-1 ∉ [0, 1]`. -/
theorem rank_offers_score_below_zero :
    ((rank_offers
        [⟨"p1", 2000, 2030, "", 1, none⟩, ⟨"p1", 0, 30, "", 0, none⟩]
        [("p1", ⟨"p1", "Provider One", 0⟩)] []
        [("earliest_weight", -1), ("rating_weight", 0), ("distance_weight", 0),
         ("preference_weight", 1)]
        0 1000).1.map SlotOffer.score) = [some 1, some (-1)] ∧
      ¬ (0 ≤ (-1 : ℚ)) := by
  have hs1 : score_offer ⟨"p1", 2000, 2030, "", 1, none⟩ ⟨"p1", "Provider One", 0⟩
      20 [("earliest_weight", -1), ("rating_weight", 0), ("distance_weight", 0),
        ("preference_weight", 1)] 0 1000
      = (1, ⟨0, 0, 6667/10000, 1, none, none⟩) := by
    simp [score_offer, List.lookup]
    norm_num [max_def, min_def, round4]
  have hs2 : score_offer ⟨"p1", 0, 30, "", 0, none⟩ ⟨"p1", "Provider One", 0⟩
      20 [("earliest_weight", -1), ("rating_weight", 0), ("distance_weight", 0),
        ("preference_weight", 1)] 0 1000
      = (-1, ⟨1, 0, 6667/10000, 0, none, none⟩) := by
    simp [score_offer, List.lookup]
    norm_num [max_def, min_def, round4]
  have hsc : scoredOffers
      [⟨"p1", 2000, 2030, "", 1, none⟩, ⟨"p1", 0, 30, "", 0, none⟩]
      [("p1", ⟨"p1", "Provider One", 0⟩)] []
      [("earliest_weight", -1), ("rating_weight", 0), ("distance_weight", 0),
       ("preference_weight", 1)] 0 1000
      = [(1, ⟨"p1", 2000, 2030, "", 1, some 1⟩, ⟨0, 0, 6667/10000, 1, none, none⟩),
         (-1, ⟨"p1", 0, 30, "", 0, some (-1)⟩, ⟨1, 0, 6667/10000, 0, none, none⟩)] := by
    simp [scoredOffers, List.filterMap_cons, List.filterMap_nil, List.lookup, hs1, hs2]
  have hsort : sortDesc (fun t => t.1) (scoredOffers
      [⟨"p1", 2000, 2030, "", 1, none⟩, ⟨"p1", 0, 30, "", 0, none⟩]
      [("p1", ⟨"p1", "Provider One", 0⟩)] []
      [("earliest_weight", -1), ("rating_weight", 0), ("distance_weight", 0),
       ("preference_weight", 1)] 0 1000)
      = [(1, ⟨"p1", 2000, 2030, "", 1, some 1⟩, ⟨0, 0, 6667/10000, 1, none, none⟩),
         (-1, ⟨"p1", 0, 30, "", 0, some (-1)⟩, ⟨1, 0, 6667/10000, 0, none, none⟩)] := by
    rw [hsc]
    norm_num [sortDesc, insertDesc]
  have hout := rank_offers_fst_eq_of_head
    [⟨"p1", 2000, 2030, "", 1, none⟩, ⟨"p1", 0, 30, "", 0, none⟩]
    [("p1", ⟨"p1", "Provider One", 0⟩)] []
    [("earliest_weight", -1), ("rating_weight", 0), ("distance_weight", 0),
     ("preference_weight", 1)] 0 1000
    (1, ⟨"p1", 2000, 2030, "", 1, some 1⟩, ⟨0, 0, 6667/10000, 1, none, none⟩)
    [(-1, ⟨"p1", 0, 30, "", 0, some (-1)⟩, ⟨1, 0, 6667/10000, 0, none, none⟩)]
    hsort (by norm_num)
  rw [hout]
  refine ⟨?_, by norm_num⟩
  have hneg : round4 (-1 : ℚ) = -1 := by norm_num [round4]
  simp [round4_one, hneg]

/-- Witness for the amended C7 at a concrete input. -/
theorem rank_offers_relative_scores_witness :
    ∃ o0, (rank_offers [⟨"p1", 0, 30, "", 1, none⟩]
        [("p1", ⟨"p1", "Provider One", 0⟩)] [("p1", 60)]
        [("earliest_weight", 1), ("rating_weight", 0), ("distance_weight", 0),
         ("preference_weight", 0)]
        0 1000).1.head? = some o0 ∧ o0.score = some 1 := by
  have hsW : score_offer ⟨"p1", 0, 30, "", 1, none⟩ ⟨"p1", "Provider One", 0⟩
      60 [("earliest_weight", 1), ("rating_weight", 0), ("distance_weight", 0),
        ("preference_weight", 0)] 0 1000
      = (1, ⟨1, 0, 0, 1, none, none⟩) := by
    simp [score_offer, List.lookup]
    norm_num [max_def, min_def, round4]
  have hscW : scoredOffers [⟨"p1", 0, 30, "", 1, none⟩]
      [("p1", ⟨"p1", "Provider One", 0⟩)] [("p1", 60)]
      [("earliest_weight", 1), ("rating_weight", 0), ("distance_weight", 0),
       ("preference_weight", 0)] 0 1000
      = [(1, ⟨"p1", 0, 30, "", 1, some 1⟩, ⟨1, 0, 0, 1, none, none⟩)] := by
    simp [scoredOffers, List.filterMap_cons, List.filterMap_nil, List.lookup, hsW]
  exact (rank_offers_relative_scores [⟨"p1", 0, 30, "", 1, none⟩]
    [("p1", ⟨"p1", "Provider One", 0⟩)] [("p1", 60)]
    [("earliest_weight", 1), ("rating_weight", 0), ("distance_weight", 0),
     ("preference_weight", 0)] 0 1000
    (1, ⟨"p1", 0, 30, "", 1, some 1⟩, ⟨1, 0, 0, 1, none, none⟩)
    (by rw [hscW]; norm_num [sortDesc, insertDesc]) (by norm_num)).1

/-- Witness for C9 at a concrete input. -/
theorem rank_offers_default_travel_witness :
    ∃ o' ∈ (rank_offers [⟨"p1", 0, 30, "", 1, none⟩]
        [("p1", ⟨"p1", "Provider One", 0⟩)] [] [] 0 1000).1,
      o'.provider_id = (⟨"p1", 0, 30, "", 1, none⟩ : SlotOffer).provider_id ∧
      o'.start = (⟨"p1", 0, 30, "", 1, none⟩ : SlotOffer).start ∧
      o'.stop = (⟨"p1", 0, 30, "", 1, none⟩ : SlotOffer).stop ∧
      o'.notes = (⟨"p1", 0, 30, "", 1, none⟩ : SlotOffer).notes ∧
      o'.confidence = (⟨"p1", 0, 30, "", 1, none⟩ : SlotOffer).confidence :=
  (rank_offers_default_travel [⟨"p1", 0, 30, "", 1, none⟩]
    [("p1", ⟨"p1", "Provider One", 0⟩)] [] [] 0 1000
    ⟨"p1", 0, 30, "", 1, none⟩ ⟨"p1", "Provider One", 0⟩
    (by simp) (by rfl) (by rfl)).2

/-! ### Swarm models (`backend/app/swarm/models.py`) -/

/-- `CallOutcome` as declared in `swarm/models.py`: exactly six members. -/
inductive CallOutcome
  | SUCCESS
  | NO_ANSWER
  | BUSY
  | FAILED
  | NO_SLOTS
  | COMPLETED_NO_MATCH
deriving DecidableEq

/-- Python enum attribute access `CallOutcome.<name>`: the member when it is
declared, otherwise the access raises `AttributeError` (modelled as `none`).
The name list is exactly the declaration list of `swarm/models.py`. -/
def CallOutcome.fromName : String → Option CallOutcome
  | "SUCCESS" => some .SUCCESS
  | "NO_ANSWER" => some .NO_ANSWER
  | "BUSY" => some .BUSY
  | "FAILED" => some .FAILED
  | "NO_SLOTS" => some .NO_SLOTS
  | "COMPLETED_NO_MATCH" => some .COMPLETED_NO_MATCH
  | _ => none

/-- `ProviderCallResult` from `swarm/models.py`. -/
structure ProviderCallResult where
  provider_id : String
  call_sid : String
  outcome : CallOutcome
  offers : List SlotOffer
  transcript_snippet : String
  notes : String
deriving DecidableEq

/-! ### Store (`backend/app/store.py`) -/

/-- `ProviderCallResultData` from `store.py` (outcome kept as a string there). -/
structure ProviderCallResultData where
  provider_id : String
  call_sid : String
  outcome : String
  offers : List SlotOffer
  transcript_snippet : String
  notes : String
deriving DecidableEq

/-- `CallMapping` from `store.py`; `completionEventSet` is the state of the
`asyncio.Event` (`True` once `set()` was called). -/
structure CallMapping where
  call_sid : String
  campaign_id : String
  provider_id : String
  result : Option ProviderCallResultData
  completionEventSet : Bool
deriving DecidableEq

/-- `Store.complete_call` from `store.py`: look the mapping up by call SID;
if absent do nothing, otherwise assign `mapping.result = result` and set the
completion event.  The `calls` dict is an association list here; the in-place
mutation becomes a keyed update. -/
def complete_call (calls : List (String × CallMapping)) (call_sid : String)
    (result : ProviderCallResultData) : List (String × CallMapping) :=
  match calls.lookup call_sid with
  | none => calls
  | some _ =>
      calls.map fun kv =>
        if kv.1 = call_sid then
          (kv.1, { kv.2 with result := some result, completionEventSet := true })
        else kv

theorem lookup_map_update (l : List (String × CallMapping)) (sid : String)
    (upd : CallMapping → CallMapping) :
    (l.map fun kv => if kv.1 = sid then (kv.1, upd kv.2) else kv).lookup sid =
      (l.lookup sid).map upd := by
  induction l with
  | nil => rfl
  | cons kv rest ih =>
      simp only [List.map_cons]
      by_cases h : kv.1 = sid
      · rw [if_pos h]
        have hb : (sid == kv.1) = true := by simp [h]
        simp [List.lookup, hb]
      · rw [if_neg h]
        have hb : (sid == kv.1) = false := by
          simp only [beq_eq_false_iff_ne, ne_eq]
          exact fun hh => h hh.symm
        simp [List.lookup, hb, ih]

theorem complete_call_lookup (calls : List (String × CallMapping))
    (sid : String) (m : CallMapping) (r : ProviderCallResultData)
    (hreg : calls.lookup sid = some m) :
    (complete_call calls sid r).lookup sid =
      some { m with result := some r, completionEventSet := true } := by
  have heq : complete_call calls sid r =
      (calls.map fun kv =>
        if kv.1 = sid then
          (kv.1, { kv.2 with result := some r, completionEventSet := true })
        else kv) := by
    unfold complete_call
    rw [hreg]
  rw [heq, lookup_map_update calls sid
    (fun mm => { mm with result := some r, completionEventSet := true }), hreg]
  rfl

/-- Counterexample to C4 as stated: after a first completion with `r1` and a
second with `r2 ≠ r1`, the stored result slot holds `r2`, not `r1` — the
second `complete_call` is not a no-op. -/
theorem complete_call_second_overwrites :
    ((complete_call
        (complete_call [("CA1", ⟨"CA1", "c1", "p1", none, false⟩)] "CA1"
          ⟨"p1", "CA1", "SUCCESS", [], "", "first"⟩)
        "CA1" ⟨"p1", "CA1", "SUCCESS", [], "", "second"⟩).lookup "CA1" =
      some ⟨"CA1", "c1", "p1", some ⟨"p1", "CA1", "SUCCESS", [], "", "second"⟩, true⟩) ∧
    (⟨"p1", "CA1", "SUCCESS", [], "", "first"⟩ : ProviderCallResultData) ≠
      ⟨"p1", "CA1", "SUCCESS", [], "", "second"⟩ := by
  constructor
  · rfl
  · intro h
    simp at h

/-- **C4 (amended)**: for a registered mapping, the second `complete_call`
overwrites the stored result slot with `r2`; the completion event's state is
the only part that is unchanged (it stays set). -/
theorem complete_call_twice (calls : List (String × CallMapping)) (sid : String)
    (m : CallMapping) (r1 r2 : ProviderCallResultData)
    (hreg : calls.lookup sid = some m) :
    ((complete_call (complete_call calls sid r1) sid r2).lookup sid =
      some { m with result := some r2, completionEventSet := true }) ∧
    ((complete_call (complete_call calls sid r1) sid r2).lookup sid).map
        CallMapping.completionEventSet =
      ((complete_call calls sid r1).lookup sid).map CallMapping.completionEventSet := by
  have h1 := complete_call_lookup calls sid m r1 hreg
  have h2 := complete_call_lookup (complete_call calls sid r1) sid
    { m with result := some r1, completionEventSet := true } r2 h1
  constructor
  · rw [h2]
  · rw [h1, h2]
    rfl

/-- Witness for the amended C4 at a concrete input. -/
theorem complete_call_twice_witness :
    (complete_call
        (complete_call [("CA1", ⟨"CA1", "c1", "p1", none, false⟩)] "CA1"
          ⟨"p1", "CA1", "SUCCESS", [], "", "first"⟩)
        "CA1" ⟨"p1", "CA1", "SUCCESS", [], "", "second"⟩).lookup "CA1" =
      some ⟨"CA1", "c1", "p1", some ⟨"p1", "CA1", "SUCCESS", [], "", "second"⟩, true⟩ :=
  (complete_call_twice [("CA1", ⟨"CA1", "c1", "p1", none, false⟩)] "CA1"
    ⟨"CA1", "c1", "p1", none, false⟩
    ⟨"p1", "CA1", "SUCCESS", [], "", "first"⟩
    ⟨"p1", "CA1", "SUCCESS", [], "", "second"⟩ (by rfl)).1

/-! ### Campaign manager (`backend/app/swarm/manager.py`) -/

/-- `CampaignStatusEnum` from `schemas.py`. -/
inductive CampaignStatusEnum
  | running
  | booking
  | booked
  | completed
  | failed
deriving DecidableEq

/-- `BookingConfirmation` from `schemas.py` (the generated `confirmation_ref`
and `confirmed_at` timestamp are opaque inputs of the embedding). -/
structure BookingConfirmation where
  provider_id : String
  start : ℤ
  stop : ℤ
  confirmation_ref : String
  notes : String
  client_name : String
  client_phone : String
deriving DecidableEq

/-- The membership test of the aggregation loop (`manager.py` line 545):
`FAILED`, `NO_ANSWER` and `BUSY` all increment the `failed` counter. -/
def countsAsFailed : CallOutcome → Bool
  | .FAILED => true
  | .NO_ANSWER => true
  | .BUSY => true
  | _ => false

/-- The terminal-status computation after discovery (`manager.py` lines
601–608).  One call result per provider, so the source's
`failed == len(providers)` is `failedCount = outcomes.length` here. -/
def discoveryStatus (outcomes : List CallOutcome) (ranked : List SlotOffer)
    (auto_book : Bool) : CampaignStatusEnum :=
  if ranked = [] ∧ (outcomes.filter countsAsFailed).length = outcomes.length then
    .failed
  else if ranked ≠ [] ∧ auto_book = true then .running
  else .completed

/-- Counterexample to C5 as stated: a single call that ended `NO_ANSWER`
(which is not `FAILED`) with an empty ranked list is mapped to `failed`,
where the claim requires `completed`. -/
theorem discoveryStatus_no_answer :
    discoveryStatus [.NO_ANSWER] [] false = .failed ∧
    CallOutcome.NO_ANSWER ≠ CallOutcome.FAILED ∧
    CampaignStatusEnum.failed ≠ CampaignStatusEnum.completed := by
  refine ⟨by rfl, by simp, by simp⟩

/-- **C5 (amended)**: without a booking phase, the campaign is `failed` iff
the ranked list is empty and every call ended `FAILED`, `NO_ANSWER` or `BUSY`
(the code counts all three as failed, not just `FAILED`); in every other case
it is `completed`. -/
theorem discoveryStatus_terminal (outcomes : List CallOutcome)
    (ranked : List SlotOffer) (auto_book : Bool)
    (hnb : ¬ (ranked ≠ [] ∧ auto_book = true)) :
    (discoveryStatus outcomes ranked auto_book = .failed ↔
      ranked = [] ∧ ∀ o ∈ outcomes, countsAsFailed o = true) ∧
    (discoveryStatus outcomes ranked auto_book = .completed ↔
      ¬ (ranked = [] ∧ ∀ o ∈ outcomes, countsAsFailed o = true)) := by
  have hiff : ((outcomes.filter countsAsFailed).length = outcomes.length) ↔
      ∀ o ∈ outcomes, countsAsFailed o = true := by
    constructor
    · intro h
      exact (List.filter_length_eq_length).mp h
    · intro h
      exact (List.filter_length_eq_length).mpr h
  unfold discoveryStatus
  by_cases h : ranked = [] ∧ (outcomes.filter countsAsFailed).length = outcomes.length
  · rw [if_pos h]
    constructor
    · simp only [true_iff]
      exact ⟨h.1, hiff.mp h.2⟩
    · constructor
      · intro hfc
        exact absurd hfc (by simp)
      · intro hneg
        exact absurd ⟨h.1, hiff.mp h.2⟩ hneg
  · rw [if_neg h, if_neg hnb]
    constructor
    · constructor
      · intro hfc
        exact absurd hfc (by simp)
      · intro hh
        exact absurd ⟨hh.1, hiff.mpr hh.2⟩ h
    · simp only [true_iff]
      intro hh
      exact h ⟨hh.1, hiff.mpr hh.2⟩

/-- Witness for the amended C5 at a concrete input. -/
theorem discoveryStatus_terminal_witness :
    discoveryStatus [CallOutcome.FAILED, CallOutcome.BUSY] [] false =
      CampaignStatusEnum.failed :=
  (discoveryStatus_terminal [CallOutcome.FAILED, CallOutcome.BUSY] [] false
    (by simp)).1.mpr ⟨rfl, by simp [countsAsFailed]⟩

/-- The `value` string of each declared `CallOutcome` member. -/
def CallOutcome.value : CallOutcome → String
  | .SUCCESS => "SUCCESS"
  | .NO_ANSWER => "NO_ANSWER"
  | .BUSY => "BUSY"
  | .FAILED => "FAILED"
  | .NO_SLOTS => "NO_SLOTS"
  | .COMPLETED_NO_MATCH => "COMPLETED_NO_MATCH"

/-- `CampaignProgress` from `schemas.py`. -/
structure CampaignProgress where
  total_providers : ℕ
  calls_in_progress : ℕ
  completed_calls : ℕ
  successful_calls : ℕ
  failed_calls : ℕ
deriving DecidableEq

/-- `CampaignState` from `store.py` (the fields the manager reads/writes;
the `debug` bag is reduced to its `note` entry). -/
structure CampaignState where
  status : CampaignStatusEnum
  providers : List Provider
  progress : CampaignProgress
  call_results : List ProviderCallResultData
  ranked : List SlotOffer
  best : Option SlotOffer
  booking_confirmation : Option BookingConfirmation
  debugNote : Option String
deriving DecidableEq

/-- `simulate_booking_call` from `swarm/manager.py`.  `seed` stands for the
SHA-256-derived integer (the hash itself is opaque to the embedding).  The
`seed % 10 == 0` branch builds a result with `CallOutcome.BOOKING_REJECTED`,
the other branch with `CallOutcome.BOOKING_CONFIRMED`; neither member is
declared in `swarm/models.py`, so the attribute access raises. -/
def simulate_booking_call (seed : ℕ) (offer : SlotOffer) :
    Except String ProviderCallResult :=
  if seed % 10 = 0 then
    match CallOutcome.fromName "BOOKING_REJECTED" with
    | none => .error "AttributeError: BOOKING_REJECTED"
    | some oc => .ok ⟨offer.provider_id, "", oc, [], "",
        "Simulated: the slot is no longer available"⟩
  else
    match CallOutcome.fromName "BOOKING_CONFIRMED" with
    | none => .error "AttributeError: BOOKING_CONFIRMED"
    | some oc => .ok ⟨offer.provider_id, "", oc, [], "", "Simulated: confirmed"⟩

/-- The attempt loop of `_run_booking_phase` (`swarm/manager.py`): a timeout
or exception of the booking call means "try the next offer"; an obtained
result is compared against `CallOutcome.BOOKING_CONFIRMED` (itself an
attribute access that raises when the member is missing, and that exception
is *outside* the `try` and would crash the task); exhaustion falls back to
`completed`.  `confRef` stands for the generated `CONF-…` reference. -/
def bookingAttempts (confRef clientName clientPhone : String)
    (bookFn : SlotOffer → Except String ProviderCallResult) :
    CampaignState → List SlotOffer → Except String CampaignState
  | st, [] => .ok { st with status := .completed }
  | st, offer :: rest =>
      match bookFn offer with
      | .error _ => bookingAttempts confRef clientName clientPhone bookFn st rest
      | .ok result =>
          match CallOutcome.fromName "BOOKING_CONFIRMED" with
          | none => .error "AttributeError: BOOKING_CONFIRMED"
          | some confirmed =>
              if result.outcome = confirmed then
                .ok { st with
                  status := .booked
                  booking_confirmation := some ⟨offer.provider_id, offer.start,
                    offer.stop, confRef, result.notes, clientName, clientPhone⟩ }
              else bookingAttempts confRef clientName clientPhone bookFn st rest

/-- `_run_booking_phase`: set status `booking`, then try the top three ranked
offers. -/
def run_booking_phase (confRef clientName clientPhone : String)
    (bookFn : SlotOffer → Except String ProviderCallResult)
    (st : CampaignState) (ranked : List SlotOffer) : Except String CampaignState :=
  bookingAttempts confRef clientName clientPhone bookFn
    { st with status := .booking } (ranked.take 3)

theorem bookingAttempts_all_error (confRef clientName clientPhone : String)
    (bookFn : SlotOffer → Except String ProviderCallResult)
    (herr : ∀ o, ∃ m, bookFn o = Except.error m) :
    ∀ (attempts : List SlotOffer) (st : CampaignState),
      bookingAttempts confRef clientName clientPhone bookFn st attempts =
        .ok { st with status := .completed } := by
  intro attempts
  induction attempts with
  | nil => intro st; rfl
  | cons offer rest ih =>
      intro st
      obtain ⟨m, hm⟩ := herr offer
      simp only [bookingAttempts, hm]
      exact ih st

/-- **C1** fails on the code: `CallOutcome` declares neither
`BOOKING_CONFIRMED` nor `BOOKING_REJECTED`, so the Phase-2 booking callback
raises `AttributeError` on every input instead of returning a
`BOOKING_CONFIRMED`/`BOOKING_REJECTED` result, and a booking phase driven by
it always falls back to `completed` — the campaign is never set to
`booked`. -/
theorem booking_outcome_members_missing :
    CallOutcome.fromName "BOOKING_CONFIRMED" = none ∧
    CallOutcome.fromName "BOOKING_REJECTED" = none ∧
    (∀ (seed : ℕ) (offer : SlotOffer), ∃ msg,
      simulate_booking_call seed offer = Except.error msg) ∧
    (∀ (confRef clientName clientPhone : String)
      (bookFn : SlotOffer → Except String ProviderCallResult),
      (∀ o, ∃ m, bookFn o = Except.error m) →
      ∀ (st : CampaignState) (ranked : List SlotOffer),
        run_booking_phase confRef clientName clientPhone bookFn st ranked =
          .ok { st with status := .completed }) := by
  refine ⟨rfl, rfl, ?_, ?_⟩
  · intro seed offer
    unfold simulate_booking_call
    by_cases h : seed % 10 = 0
    · rw [if_pos h]
      exact ⟨_, rfl⟩
    · rw [if_neg h]
      exact ⟨_, rfl⟩
  · intro confRef clientName clientPhone bookFn herr st ranked
    unfold run_booking_phase
    rw [bookingAttempts_all_error confRef clientName clientPhone bookFn herr]

/-- Witness for C1's theorem at a concrete input: a booking phase driven by
`simulate_booking_call` leaves a fresh running campaign `completed` with no
confirmation. -/
theorem booking_outcome_members_missing_witness :
    run_booking_phase "" "" "" (fun o => simulate_booking_call 7 o)
      ⟨.running, [], ⟨0, 0, 0, 0, 0⟩, [], [], none, none, none⟩
      [⟨"p1", 0, 30, "", 1, none⟩] =
      .ok ⟨.completed, [], ⟨0, 0, 0, 0, 0⟩, [], [], none, none, none⟩ :=
  booking_outcome_members_missing.2.2.2 "" "" "" (fun o => simulate_booking_call 7 o)
    (fun o => booking_outcome_members_missing.2.2.1 7 o)
    ⟨.running, [], ⟨0, 0, 0, 0, 0⟩, [], [], none, none, none⟩
    [⟨"p1", 0, 30, "", 1, none⟩]

/-! ### Remote calendar variants (`backend/app/services/calendar.py`) -/

/-- Stable ascending insertion by interval start, modelling Python's stable
`sorted(busy, key=lambda b: b[0])`. -/
def insertAscIv (x : Iv) : List Iv → List Iv
  | [] => [x]
  | y :: ys => if x.lo ≤ y.lo then x :: y :: ys else y :: insertAscIv x ys

def sortAscIv (l : List Iv) : List Iv := l.foldr insertAscIv []

/-- Outcome of the service-account FreeBusy query seen inside
`GoogleCalendarService.get_busy_blocks`: either a well-formed busy list, or
any failure (network error, non-2xx, malformed payload — all reach the
`except` clause). -/
inductive GoogleFreeBusyOutcome
  | ok (busy : List Iv)
  | failure

/-- `GoogleCalendarService.get_busy_blocks`: a failed credential build
(`self._service is None`) yields `[]`, and any exception in the query or the
parse is caught, logged, and `[]` is returned — the failure is swallowed. -/
def google_get_busy_blocks (serviceBuilt : Bool)
    (resp : GoogleFreeBusyOutcome) : List Iv :=
  if serviceBuilt then
    match resp with
    | .ok busy => busy
    | .failure => []
  else []

/-- `GoogleCalendarService.is_free` (the 15-minute query buffer widens the
fetched range; the overlap test itself is on `[start, stop)`).  It can only
return a Bool — `get_busy_blocks` never raises. -/
def google_is_free (serviceBuilt : Bool) (resp : GoogleFreeBusyOutcome)
    (start stop : ℤ) : Bool :=
  (google_get_busy_blocks serviceBuilt resp).all
    (fun b => !(intervalsOverlap start stop b.lo b.hi))

/-- `GoogleCalendarService.get_available_slots`: busy blocks (with swallowed
failures), sorted by start, fed to `_compute_free_windows`. -/
def google_get_available_slots (serviceBuilt : Bool)
    (resp : GoogleFreeBusyOutcome) (dayStart dayEnd minSlot : ℤ) : List Iv :=
  computeFreeWindows dayStart dayEnd
    (sortAscIv (google_get_busy_blocks serviceBuilt resp)) minSlot

/-- An HTTP response of the FreeBusy endpoint as the OAuth variant sees it:
a status code and, for 200s, the parsed busy list (`none` = malformed body,
i.e. `resp.json()` / `datetime.fromisoformat` raises). -/
structure HttpResponse where
  status : ℕ
  busyPayload : Option (List Iv)
deriving DecidableEq

/-- Outcome of the token-refresh POST in `_refresh_access_token`. -/
inductive RefreshOutcome
  | ok
  | httpError
deriving DecidableEq

/-- The remote behaviour a single `_freebusy_query` run can observe. -/
structure OAuthEnv where
  hasRefreshToken : Bool
  firstResponse : HttpResponse
  refresh : RefreshOutcome
  retryResponse : HttpResponse

/-- The two kinds of exception `_freebusy_query` can raise:
`CalendarUnavailableError` (non-2xx other than a refreshed 401), or any
other exception (`RuntimeError` from the refresh path, or a parse error). -/
inductive QueryError
  | calendarUnavailable
  | otherException
deriving DecidableEq

/-- `UserOAuthCalendarService._freebusy_query`: POST the query; on a 401
refresh the token once and POST again; any non-200 response then raises
`CalendarUnavailableError`; a malformed 200 raises a parse error.  The
second component counts the token-refresh POST attempts (at most one). -/
def freebusy_query (env : OAuthEnv) : Except QueryError (List Iv) × ℕ :=
  if env.firstResponse.status = 401 then
    if env.hasRefreshToken then
      match env.refresh with
      | .httpError => (.error .otherException, 1)
      | .ok =>
          if env.retryResponse.status ≠ 200 then (.error .calendarUnavailable, 1)
          else match env.retryResponse.busyPayload with
            | none => (.error .otherException, 1)
            | some busy => (.ok busy, 1)
    else (.error .otherException, 0)
  else
    if env.firstResponse.status ≠ 200 then (.error .calendarUnavailable, 0)
    else match env.firstResponse.busyPayload with
      | none => (.error .otherException, 0)
      | some busy => (.ok busy, 0)

/-- `UserOAuthCalendarService.is_free`: re-raises `CalendarUnavailableError`
and wraps every other exception into `CalendarUnavailableError` — fail
closed.  `Except.error ()` is a raised `CalendarUnavailableError`. -/
def user_oauth_is_free (env : OAuthEnv) (start stop : ℤ) : Except Unit Bool :=
  match (freebusy_query env).1 with
  | .error _ => .error ()
  | .ok busy => .ok (busy.all (fun b => !(intervalsOverlap start stop b.lo b.hi)))

/-- `UserOAuthCalendarService.get_available_slots`: same wrapping. -/
def user_oauth_get_available_slots (env : OAuthEnv)
    (dayStart dayEnd minSlot : ℤ) : Except Unit (List Iv) :=
  match (freebusy_query env).1 with
  | .error _ => .error ()
  | .ok busy => .ok (computeFreeWindows dayStart dayEnd (sortAscIv busy) minSlot)

/-- Counterexample to C2 as stated: the service-account variant's `is_free`
answers `true` — a free verdict — when the remote lookup fails, instead of
raising `CalendarUnavailable`. -/
theorem google_calendar_fail_open :
    google_is_free true GoogleFreeBusyOutcome.failure 540 600 = true := rfl

/-- **C2 (amended)**: the *per-user OAuth* variant fails closed — any remote
failure (non-2xx other than 401, malformed payload, or a failed retry after
the single 401-triggered token refresh) surfaces as `CalendarUnavailable`
from both `is_free` and `get_available_slots`, and a 401 with a refresh
token triggers exactly one refresh POST — whereas the *service-account*
variant swallows lookup failures and returns a free verdict. -/
theorem calendar_fail_closed_oauth (env : OAuthEnv) (s e ds de m : ℤ) :
    (env.firstResponse.status ≠ 401 → env.firstResponse.status ≠ 200 →
      user_oauth_is_free env s e = .error () ∧
      user_oauth_get_available_slots env ds de m = .error ()) ∧
    (env.firstResponse.status = 200 → env.firstResponse.busyPayload = none →
      user_oauth_is_free env s e = .error () ∧
      user_oauth_get_available_slots env ds de m = .error ()) ∧
    (env.firstResponse.status = 401 → env.hasRefreshToken = true →
      (freebusy_query env).2 = 1 ∧
      ((env.refresh = .httpError ∨ env.retryResponse.status ≠ 200 ∨
          env.retryResponse.busyPayload = none) →
        user_oauth_is_free env s e = .error () ∧
        user_oauth_get_available_slots env ds de m = .error ())) ∧
    (∀ s' e', google_is_free true GoogleFreeBusyOutcome.failure s' e' = true) := by
  refine ⟨?_, ?_, ?_, fun s' e' => rfl⟩
  · intro h401 h200
    have hq : (freebusy_query env).1 = .error .calendarUnavailable := by
      unfold freebusy_query
      rw [if_neg h401, if_pos h200]
    constructor
    · unfold user_oauth_is_free
      rw [hq]
    · unfold user_oauth_get_available_slots
      rw [hq]
  · intro h200 hmal
    have hq : (freebusy_query env).1 = .error .otherException := by
      unfold freebusy_query
      rw [if_neg (by omega : ¬ env.firstResponse.status = 401),
        if_neg (by omega : ¬ env.firstResponse.status ≠ 200), hmal]
    constructor
    · unfold user_oauth_is_free
      rw [hq]
    · unfold user_oauth_get_available_slots
      rw [hq]
  · intro h401 htok
    constructor
    · unfold freebusy_query
      rw [if_pos h401, htok, if_pos rfl]
      cases henv : env.refresh with
      | httpError => rfl
      | ok =>
          by_cases h : env.retryResponse.status ≠ 200
          · rw [if_pos h]
          · rw [if_neg h]
            cases env.retryResponse.busyPayload <;> rfl
    · intro hfail
      have hq : ∃ qe, (freebusy_query env).1 = .error qe := by
        unfold freebusy_query
        rw [if_pos h401, htok, if_pos rfl]
        cases henv : env.refresh with
        | httpError => exact ⟨.otherException, rfl⟩
        | ok =>
            rcases hfail with hr | h2 | h3
            · rw [henv] at hr
              simp at hr
            · rw [if_pos h2]
              exact ⟨.calendarUnavailable, rfl⟩
            · by_cases h : env.retryResponse.status ≠ 200
              · rw [if_pos h]
                exact ⟨.calendarUnavailable, rfl⟩
              · rw [if_neg h, h3]
                exact ⟨.otherException, rfl⟩
      obtain ⟨qe, hq⟩ := hq
      constructor
      · unfold user_oauth_is_free
        rw [hq]
      · unfold user_oauth_get_available_slots
        rw [hq]

/-- Witness for the amended C2 at a concrete input: a 500 on the first
request makes both operations raise, and a 401 followed by a failing retry
performs exactly one refresh and raises. -/
theorem calendar_fail_closed_oauth_witness :
    user_oauth_is_free ⟨true, ⟨500, none⟩, .ok, ⟨200, some []⟩⟩ 540 600 =
        .error () ∧
    (freebusy_query ⟨true, ⟨401, none⟩, .ok, ⟨403, none⟩⟩).2 = 1 ∧
    user_oauth_get_available_slots ⟨true, ⟨401, none⟩, .ok, ⟨403, none⟩⟩
        540 1020 30 = .error () := by
  refine ⟨?_, ?_, ?_⟩
  · exact ((calendar_fail_closed_oauth ⟨true, ⟨500, none⟩, .ok, ⟨200, some []⟩⟩
      540 600 540 1020 30).1 (by decide) (by decide)).1
  · exact ((calendar_fail_closed_oauth ⟨true, ⟨401, none⟩, .ok, ⟨403, none⟩⟩
      540 600 540 1020 30).2.2.1 rfl rfl).1
  · exact (((calendar_fail_closed_oauth ⟨true, ⟨401, none⟩, .ok, ⟨403, none⟩⟩
      540 600 540 1020 30).2.2.1 rfl rfl).2 (Or.inr (Or.inl (by decide)))).2

/-! ### Simulated call driver and agent tools
(`backend/app/swarm/manager.py`, `backend/app/voice/tools_registry.py`) -/

/-- A calendar's `is_free` capability as its consumers see it:
`Except.error ()` is a raised `CalendarUnavailableError`. -/
abbrev CalendarIsFree := ℤ → ℤ → Except Unit Bool

/-- One iteration `i ∈ {0,1,2}` of the candidate loop of `simulate_call`
(`swarm/manager.py`): build the candidate from the seed, skip it when its end
exceeds the campaign window, skip on `CalendarUnavailableError` (fail
closed), on a calendar conflict shift one hour later and retry once (with
the same end-of-window and fail-closed guards).  Times are minutes. -/
def simulateStep (cal : CalendarIsFree) (seed : ℕ)
    (base range_end duration : ℤ) (i : ℕ) : Option Iv :=
  let offset_hours : ℤ := ((seed >>> (i * 4)) % 8 : ℕ)
  let candidate_start := base + (i : ℤ) * 1440 + offset_hours * 60
  let candidate_end := candidate_start + duration
  if range_end < candidate_end then none
  else
    match cal candidate_start candidate_end with
    | .error _ => none
    | .ok true => some ⟨candidate_start, candidate_end⟩
    | .ok false =>
        if range_end < candidate_end + 60 then none
        else
          match cal (candidate_start + 60) (candidate_end + 60) with
          | .error _ => none
          | .ok true => some ⟨candidate_start + 60, candidate_end + 60⟩
          | .ok false => none

/-- The offer-collection loop of `simulate_call`: iterate the candidate
indices, append an offer for each surviving candidate, stop once two offers
were collected. -/
def simulateOffersGo (cal : CalendarIsFree) (seed : ℕ)
    (providerId providerName : String) (base range_end duration : ℤ) :
    List ℕ → ℕ → List SlotOffer
  | [], _ => []
  | i :: rest, count =>
      match simulateStep cal seed base range_end duration i with
      | none => simulateOffersGo cal seed providerId providerName base range_end
          duration rest count
      | some iv =>
          let offer : SlotOffer := ⟨providerId, iv.lo, iv.hi,
            "Simulated offer from " ++ providerName, 9/10 - (i : ℚ) * (1/10), none⟩
          if 2 ≤ count + 1 then [offer]
          else offer :: simulateOffersGo cal seed providerId providerName base
            range_end duration rest (count + 1)

/-- `simulate_call` from `swarm/manager.py`.  `seed` stands for the SHA-256
integer of the provider id; fates 0 and 1 are `NO_ANSWER` / `NO_SLOTS`;
otherwise candidates start from 09:00 local on the window's start date
(`base`, the start of the day `date_range_start` falls in, plus 540
minutes). -/
def simulate_call (cal : CalendarIsFree) (seed : ℕ) (provider : Provider)
    (date_range_start date_range_end duration_min : ℤ) : ProviderCallResult :=
  if seed % 10 = 0 then
    ⟨provider.id, "", .NO_ANSWER, [], "", "Simulated: no answer"⟩
  else if seed % 10 = 1 then
    ⟨provider.id, "", .NO_SLOTS, [], "", "Simulated: receptionist said no availability"⟩
  else
    let base := (date_range_start.fdiv 1440) * 1440 + 540
    let offers := simulateOffersGo cal seed provider.id provider.name base
      date_range_end duration_min [0, 1, 2] 0
    if offers = [] then
      ⟨provider.id, "", .COMPLETED_NO_MATCH, [], "",
        "Simulated: all candidate slots conflicted with calendar"⟩
    else
      ⟨provider.id, "", .SUCCESS, offers,
        "Simulated call with " ++ provider.name ++ "; offered " ++
          toString offers.length ++ " slot(s).", "simulated"⟩

theorem simulateStep_sound (cal : CalendarIsFree) (seed : ℕ)
    (base range_end duration : ℤ) (i : ℕ) (iv : Iv)
    (h : simulateStep cal seed base range_end duration i = some iv) :
    cal iv.lo iv.hi = Except.ok true ∧ iv.hi ≤ range_end := by
  unfold simulateStep at h
  set cs := base + (i : ℤ) * 1440 + (((seed >>> (i * 4)) % 8 : ℕ) : ℤ) * 60 with hcs
  by_cases h1 : range_end < cs + duration
  · rw [if_pos h1] at h
    exact absurd h (by simp)
  · rw [if_neg h1] at h
    cases hc : cal cs (cs + duration) with
    | error u => rw [hc] at h; exact absurd h (by simp)
    | ok free =>
        rw [hc] at h
        cases free with
        | true =>
            simp only [Option.some.injEq] at h
            subst h
            refine ⟨hc, ?_⟩
            show cs + duration ≤ range_end
            omega
        | false =>
            by_cases h2 : range_end < cs + duration + 60
            · rw [if_pos h2] at h
              exact absurd h (by simp)
            · rw [if_neg h2] at h
              cases hc2 : cal (cs + 60) (cs + duration + 60) with
              | error u => rw [hc2] at h; exact absurd h (by simp)
              | ok free2 =>
                  rw [hc2] at h
                  cases free2 with
                  | true =>
                      simp only [Option.some.injEq] at h
                      subst h
                      refine ⟨hc2, ?_⟩
                      show cs + duration + 60 ≤ range_end
                      omega
                  | false => exact absurd h (by simp)

theorem simulateOffersGo_sound (cal : CalendarIsFree) (seed : ℕ)
    (providerId providerName : String) (base range_end duration : ℤ) :
    ∀ (idxs : List ℕ) (count : ℕ) (offer : SlotOffer),
      offer ∈ simulateOffersGo cal seed providerId providerName base range_end
        duration idxs count →
      cal offer.start offer.stop = Except.ok true ∧ offer.stop ≤ range_end := by
  intro idxs
  induction idxs with
  | nil => intro count offer h; exact absurd h (by simp [simulateOffersGo])
  | cons i rest ih =>
      intro count offer h
      unfold simulateOffersGo at h
      split at h
      · exact ih count offer h
      · rename_i iv hstep
        have hsound := simulateStep_sound cal seed base range_end duration i iv hstep
        by_cases hcnt : 2 ≤ count + 1
        · simp only [if_pos hcnt] at h
          simp only [List.mem_singleton] at h
          subst h
          exact hsound
        · simp only [if_neg hcnt] at h
          rcases List.mem_cons.mp h with rfl | hmem
          · exact hsound
          · exact ih (count + 1) offer hmem

/-- Every offer the simulated driver returns passed a final `is_free` check
that returned `True`, and ends inside the campaign window. -/
theorem simulate_call_offers_sound (cal : CalendarIsFree) (seed : ℕ)
    (provider : Provider) (drs dre dur : ℤ) :
    ∀ offer ∈ (simulate_call cal seed provider drs dre dur).offers,
      cal offer.start offer.stop = Except.ok true ∧ offer.stop ≤ dre := by
  intro offer h
  unfold simulate_call at h
  by_cases h0 : seed % 10 = 0
  · rw [if_pos h0] at h
    exact absurd h (by simp)
  · rw [if_neg h0] at h
    by_cases h1 : seed % 10 = 1
    · rw [if_pos h1] at h
      exact absurd h (by simp)
    · rw [if_neg h1] at h
      by_cases hof : simulateOffersGo cal seed provider.id provider.name
          ((drs.fdiv 1440) * 1440 + 540) dre dur [0, 1, 2] 0 = []
      · rw [if_pos hof] at h
        exact absurd h (by simp)
      · rw [if_neg hof] at h
        exact simulateOffersGo_sound cal seed provider.id provider.name
          ((drs.fdiv 1440) * 1440 + 540) dre dur [0, 1, 2] 0 offer h

/-- Result payload of the `calendar_check` tool. -/
structure CalendarCheckResult where
  free : Bool
  error : Option String
deriving DecidableEq

/-- `calendar_check` from `voice/tools_registry.py`.  `none` parameters model
an unparseable ISO datetime; parseable parameters are given already localised
and year-corrected (`_localize_naive` / `_fix_past_dates` relabel instants
monotonically). -/
def calendar_check (cal : CalendarIsFree) (start stop : Option ℤ) :
    CalendarCheckResult :=
  match start, stop with
  | some s, some e =>
      (match cal s e with
       | .error _ => ⟨false, some "Calendar unavailable, cannot verify"⟩
       | .ok free => ⟨free, none⟩)
  | _, _ => ⟨false, some "Invalid datetime format"⟩

/-- Result payload of the `validate_slot` tool. -/
structure ValidateSlotResult where
  ok : Bool
  reason : Option String
deriving DecidableEq

/-- The range test of `validate_slot`: `start < range_start or end > range_end`,
when the campaign (and hence its date range) is resolvable from the context. -/
def outOfRange (campaignRange : Option (ℤ × ℤ)) (s e : ℤ) : Bool :=
  match campaignRange with
  | some (rs, re) => decide (s < rs) || decide (re < e)
  | none => false

/-- `validate_slot` from `voice/tools_registry.py`: reject slots outside the
campaign's date range, then consult the calendar fail-closed. -/
def validate_slot (cal : CalendarIsFree) (campaignRange : Option (ℤ × ℤ))
    (start stop : Option ℤ) : ValidateSlotResult :=
  match start, stop with
  | some s, some e =>
      if outOfRange campaignRange s e then
        ⟨false, some "Slot is outside the requested date range"⟩
      else
        match cal s e with
        | .error _ => ⟨false, some "Calendar unavailable, cannot verify availability"⟩
        | .ok false => ⟨false, some "Conflicts with client calendar"⟩
        | .ok true => ⟨true, none⟩
  | _, _ => ⟨false, some "Invalid datetime format"⟩

/-- **C3**: when the calendar layer raises `CalendarUnavailable`, no consumer
produces a free verdict: `calendar_check` answers `{free: false}` with an
error, `validate_slot` answers `{ok: false}` with a reason, and the simulated
driver only ever offers slots whose (possibly shifted) final check returned
`True` — an unavailable check makes it skip the candidate. -/
theorem fail_closed_consumers (cal : CalendarIsFree) (s e : ℤ)
    (campaignRange : Option (ℤ × ℤ)) (seed : ℕ) (provider : Provider)
    (drs dre dur : ℤ)
    (hse : cal s e = Except.error ()) :
    ((calendar_check cal (some s) (some e)).free = false ∧
      (calendar_check cal (some s) (some e)).error ≠ none) ∧
    ((validate_slot cal campaignRange (some s) (some e)).ok = false ∧
      (validate_slot cal campaignRange (some s) (some e)).reason ≠ none) ∧
    (∀ offer ∈ (simulate_call cal seed provider drs dre dur).offers,
      cal offer.start offer.stop = Except.ok true) := by
  refine ⟨?_, ?_, ?_⟩
  · simp [calendar_check, hse]
  · simp only [validate_slot]
    by_cases hr : outOfRange campaignRange s e = true
    · rw [if_pos hr]
      exact ⟨rfl, by simp⟩
    · rw [if_neg hr, hse]
      exact ⟨rfl, by simp⟩
  · intro offer h
    exact (simulate_call_offers_sound cal seed provider drs dre dur offer h).1

/-- Witness for C3 at a concrete input: an always-unavailable calendar. -/
theorem fail_closed_consumers_witness :
    (calendar_check (fun _ _ => Except.error ()) (some 540) (some 570)).free =
        false ∧
    (validate_slot (fun _ _ => Except.error ()) (some (0, 10000)) (some 540)
        (some 570)).ok = false :=
  ⟨((fail_closed_consumers (fun _ _ => Except.error ()) 540 570 (some (0, 10000))
      8 ⟨"p1", "P One", 0⟩ 840 5160 30 rfl).1).1,
    ((fail_closed_consumers (fun _ _ => Except.error ()) 540 570 (some (0, 10000))
      8 ⟨"p1", "P One", 0⟩ 840 5160 30 rfl).2.1).1⟩

/-- Counterexample to C8 as stated: the driver only checks the upper end of
the window (`candidate_end > req.date_range_end`), so with a window opening
at 14:00 (minute 840 of day 0) the seed-8 provider offers 09:00–09:30
(minutes 540–570), which starts before `date_range_start`. -/
theorem simulate_call_offer_before_window :
    ((simulate_call (fun _ _ => Except.ok true) 8 ⟨"p1", "P One", 0⟩ 840 5160
        30).offers.map SlotOffer.start).head? = some 540 ∧ (540 : ℤ) < 840 := by
  constructor
  · rfl
  · decide

/-- **C8 (amended)**: every offer of a simulated call ends no later than
`date_range_end`; the lower window bound is not enforced (offers may begin
before `date_range_start` whenever the window opens after 09:00 local). -/
theorem simulate_call_offers_end_in_window (cal : CalendarIsFree) (seed : ℕ)
    (provider : Provider) (drs dre dur : ℤ) :
    ((simulate_call cal seed provider drs dre dur).offers.all
      (fun offer => decide (offer.stop ≤ dre))) = true := by
  rw [List.all_eq_true]
  intro offer h
  simpa using (simulate_call_offers_sound cal seed provider drs dre dur offer h).2

/-! ### Campaign runner (`run_campaign` in `backend/app/swarm/manager.py`) -/

/-- `run_campaign` after provider resolution (search, allow-list filter and
travel filter are folded into `resolvedProviders`; `callFn` is the per-call
driver, `travelFn` the distance estimate, `bookFn` the booking callback).
Call results are aggregated in completion order; the embedding uses the
provider order (the property proved about this function does not depend on
the order).  The empty-provider early return mirrors lines 501–513 of the
source: providers and progress are persisted, then the campaign is marked
`completed` with an explanatory debug note and no calls are placed. -/
def run_campaign (st : CampaignState) (resolvedProviders : List Provider)
    (callFn : Provider → ProviderCallResult) (travelFn : Provider → ℤ)
    (prefs : List (String × ℚ)) (date_range_start date_range_end : ℤ)
    (auto_book : Bool) (confRef clientName clientPhone : String)
    (bookFn : SlotOffer → Except String ProviderCallResult) :
    Except String CampaignState :=
  let st1 := { st with
    providers := resolvedProviders
    progress := ⟨resolvedProviders.length, 0, 0, 0, 0⟩ }
  if resolvedProviders = [] then
    .ok { st1 with
      status := .completed
      debugNote := some "No providers found for this service/location" }
  else
    let results := resolvedProviders.map callFn
    let all_offers := (results.filter (fun r => r.outcome = .SUCCESS)).flatMap
      (fun r => r.offers)
    let successful := (results.filter (fun r => r.outcome = .SUCCESS)).length
    let failed := (results.filter (fun r => countsAsFailed r.outcome)).length
    let providers_by_id := resolvedProviders.map (fun p => (p.id, p))
    let travel_by_provider := resolvedProviders.map (fun p => (p.id, travelFn p))
    let ranked := (rank_offers all_offers providers_by_id travel_by_provider
      prefs date_range_start date_range_end).1
    let status := discoveryStatus (results.map (fun r => r.outcome)) ranked auto_book
    let st2 := { st1 with
      status := status
      call_results := results.map (fun r => ⟨r.provider_id, r.call_sid,
        r.outcome.value, r.offers, r.transcript_snippet, r.notes⟩)
      ranked := ranked
      best := ranked.head?
      progress := ⟨resolvedProviders.length, 0, results.length, successful, failed⟩ }
    if ranked ≠ [] ∧ auto_book = true then
      run_booking_phase confRef clientName clientPhone bookFn st2 ranked
    else .ok st2

/-- **C10**: when provider resolution leaves no providers, the campaign ends
`completed` (not `failed`) with the explanatory debug note, the call-result
and ranked lists are untouched, no booking confirmation appears, and neither
the call driver nor the booking callback is ever consulted (the result does
not depend on them). -/
theorem run_campaign_no_providers (st : CampaignState)
    (callFn : Provider → ProviderCallResult) (travelFn : Provider → ℤ)
    (prefs : List (String × ℚ)) (drs dre : ℤ) (auto_book : Bool)
    (confRef clientName clientPhone : String)
    (bookFn : SlotOffer → Except String ProviderCallResult) :
    run_campaign st [] callFn travelFn prefs drs dre auto_book confRef
        clientName clientPhone bookFn =
      .ok { st with
        providers := []
        progress := ⟨0, 0, 0, 0, 0⟩
        status := .completed
        debugNote := some "No providers found for this service/location" } ∧
    CampaignStatusEnum.completed ≠ CampaignStatusEnum.failed ∧
    CampaignStatusEnum.completed ≠ CampaignStatusEnum.booking ∧
    CampaignStatusEnum.completed ≠ CampaignStatusEnum.booked := by
  refine ⟨rfl, by simp, by simp, by simp⟩

end CallPilot
